import Mathlib

/-!
Verification of the risk scoring and escalation pipeline of a role-based
mental-health web application (student / counsellor / admin dashboards).

The definitions below are a shallow embedding of the program's core logic:

* `assessRiskBasedOnKeywords` — the lexical risk classifier from
  `student-dashboard.tsx` (keyword substring matching on the lowercased
  message, tested in severity order crisis → high → moderate → low).
* `scoreAssessment` — the PHQ-9 / GAD-7 threshold scorer inlined in the
  server's `POST /assessment` handler.
* `maybeEscalate` — the auto-scheduling block of the server's
  `POST /chat` handler (appointment for tomorrow at 10:00 assigned to the
  first counsellor profile when the tier is high or crisis).
* `incrementRisk`, `handleChat`, `handleAssessment` — the per-day
  analytics counters and the overall state effect of the two handlers.
* `getOverallStats` — the admin dashboard's 7-day aggregation and crisis
  rate computation.

Strings are Lean `String`s; JavaScript's `message.toLowerCase()` is
modelled by mapping `Char.toLower` over the characters (the keywords are
ASCII) and `hay.includes(needle)` by a contiguous-substring test on the
character lists. JavaScript numbers appearing here are integers in every
reachable case, so item scores are modelled as `Int` and counters as
`Nat`; the one division (the crisis rate) is modelled over `ℚ`. Calendar
dates are modelled as UTC day numbers (milliseconds since the epoch
divided by 86400000), which the ISO date strings of the source render
bijectively. The key-value store is modelled structurally: one field per
key family, with the per-day analytics maps indexed by the date key.
-/

/-- The four risk tiers used throughout the application
(`'low' | 'moderate' | 'high' | 'crisis'`). -/
inductive RiskLevel where
  | low
  | moderate
  | high
  | crisis
deriving DecidableEq, Repr

/-- Does `hay` start with `needle` (character-wise)? Helper for the
substring test below. -/
def charsStartWith : List Char → List Char → Bool
  | [], _ => true
  | _ :: _, [] => false
  | a :: as, b :: bs => a == b && charsStartWith as bs

/-- Does `needle` occur as a contiguous substring of `hay`? -/
def charsContain : List Char → List Char → Bool
  | [], needle => needle.isEmpty
  | hay@(_ :: tl), needle => charsStartWith needle hay || charsContain tl needle

/-- JavaScript `message.toLowerCase()` on the (ASCII) texts this program
matches against, as a list of characters. -/
def lowerChars (s : String) : List Char := s.data.map Char.toLower

/-- JavaScript `hay.includes(needle)` where `hay` is an already-lowercased
character list. -/
def jsIncludes (hay : List Char) (needle : String) : Bool :=
  charsContain hay needle.data

/-- `crisisKeywords` from `assessRiskBasedOnKeywords` in
`student-dashboard.tsx`. -/
def crisisKeywords : List String :=
  ["suicide", "kill myself", "end it all", "die", "harm myself"]

/-- `highRiskKeywords` from `assessRiskBasedOnKeywords`. -/
def highRiskKeywords : List String :=
  ["hopeless", "worthless", "desperate", "can't cope", "overwhelming"]

/-- `moderateRiskKeywords` from `assessRiskBasedOnKeywords`. -/
def moderateRiskKeywords : List String :=
  ["sad", "anxious", "worried", "stressed", "depressed"]

/-- The lexical risk classifier `assessRiskBasedOnKeywords(message)` from
`student-dashboard.tsx`: lower-case the message once, then test the crisis
keyword set, the high-risk set and the moderate set in that order, the
first set with a substring match deciding the tier, defaulting to low. -/
def assessRiskBasedOnKeywords (message : String) : RiskLevel :=
  let lowerMessage := lowerChars message
  if crisisKeywords.any (fun keyword => jsIncludes lowerMessage keyword) then
    RiskLevel.crisis
  else if highRiskKeywords.any (fun keyword => jsIncludes lowerMessage keyword) then
    RiskLevel.high
  else if moderateRiskKeywords.any (fun keyword => jsIncludes lowerMessage keyword) then
    RiskLevel.moderate
  else
    RiskLevel.low

/-- The questionnaire scorer inlined in the server's `POST /assessment`
handler: `result` starts as the empty string and `riskLevel` as low, a
`type === 'PHQ-9'` block and then a `type === 'GAD-7'` block each overwrite
them from the sum of `scores` (`scores.reduce((sum, score) => sum + score, 0)`)
through an if-chain of inclusive upper bounds. No validation of the length
or range of `scores` is performed anywhere in the handler. -/
def scoreAssessment (ty : String) (scores : List Int) : String × RiskLevel :=
  let start : String × RiskLevel := ("", RiskLevel.low)
  let afterPhq :=
    if ty = "PHQ-9" then
      let total := scores.foldl (· + ·) 0
      if total ≤ 4 then ("Minimal Depression", RiskLevel.low)
      else if total ≤ 9 then ("Mild Depression", RiskLevel.low)
      else if total ≤ 14 then ("Moderate Depression", RiskLevel.moderate)
      else if total ≤ 19 then ("Moderately Severe Depression", RiskLevel.high)
      else ("Severe Depression", RiskLevel.crisis)
    else start
  if ty = "GAD-7" then
    let total := scores.foldl (· + ·) 0
    if total ≤ 4 then ("Minimal Anxiety", RiskLevel.low)
    else if total ≤ 9 then ("Mild Anxiety", RiskLevel.low)
    else if total ≤ 14 then ("Moderate Anxiety", RiskLevel.moderate)
    else ("Severe Anxiety", RiskLevel.high)
  else afterPhq

/-- The PHQ-9 threshold table exactly as the specification words it, with
both bounds of every band explicit (the fall-through arm is never reached
for totals in [0, 27]). -/
def phq9SpecTable (total : Int) : String × RiskLevel :=
  if 0 ≤ total ∧ total ≤ 4 then ("Minimal Depression", RiskLevel.low)
  else if 5 ≤ total ∧ total ≤ 9 then ("Mild Depression", RiskLevel.low)
  else if 10 ≤ total ∧ total ≤ 14 then ("Moderate Depression", RiskLevel.moderate)
  else if 15 ≤ total ∧ total ≤ 19 then ("Moderately Severe Depression", RiskLevel.high)
  else if 20 ≤ total ∧ total ≤ 27 then ("Severe Depression", RiskLevel.crisis)
  else ("", RiskLevel.low)

/-- The GAD-7 threshold table exactly as the specification words it. -/
def gad7SpecTable (total : Int) : String × RiskLevel :=
  if 0 ≤ total ∧ total ≤ 4 then ("Minimal Anxiety", RiskLevel.low)
  else if 5 ≤ total ∧ total ≤ 9 then ("Mild Anxiety", RiskLevel.low)
  else if 10 ≤ total ∧ total ≤ 14 then ("Moderate Anxiety", RiskLevel.moderate)
  else if 15 ≤ total ∧ total ≤ 21 then ("Severe Anxiety", RiskLevel.high)
  else ("", RiskLevel.low)

/-- The five result pairs the PHQ-9 branch of the scorer can produce. -/
def phq9Outcomes : List (String × RiskLevel) :=
  [("Minimal Depression", RiskLevel.low), ("Mild Depression", RiskLevel.low),
   ("Moderate Depression", RiskLevel.moderate),
   ("Moderately Severe Depression", RiskLevel.high),
   ("Severe Depression", RiskLevel.crisis)]

/-- The four result pairs the GAD-7 branch of the scorer can produce. -/
def gad7Outcomes : List (String × RiskLevel) :=
  [("Minimal Anxiety", RiskLevel.low), ("Mild Anxiety", RiskLevel.low),
   ("Moderate Anxiety", RiskLevel.moderate), ("Severe Anxiety", RiskLevel.high)]

/-- A stored user profile, restricted to the fields the escalation block
reads (`id` and `role`). -/
structure Profile where
  id : String
  role : String
deriving DecidableEq, Repr

/-- An appointment record as the chat handler creates it. `date` is a UTC
day number. -/
structure Appointment where
  studentId : String
  counsellorId : String
  date : Nat
  time : String
  status : String
  riskLevel : RiskLevel
deriving DecidableEq, Repr

/-- The UTC day number of a millisecond timestamp: what
`new Date(ms).toISOString().split('T')[0]` renders as a date string. -/
def epochDay (ms : Nat) : Nat := ms / 86400000

/-- The auto-scheduling block of the server's `POST /chat` handler: when
the risk level is crisis or high, filter the stored profiles down to
counsellors and, if any exists, create an appointment for the first one,
dated `Date.now() + 24*60*60*1000`, at the fixed time "10:00", with status
"auto-scheduled" and the triggering risk level; otherwise (and for lower
tiers) create nothing. -/
def maybeEscalate (studentId : String) (riskLevel : RiskLevel) (users : List Profile)
    (nowMs : Nat) : Option Appointment :=
  if riskLevel = RiskLevel.crisis ∨ riskLevel = RiskLevel.high then
    match users.filter (fun profile => profile.role == "counsellor") with
    | [] => none
    | counsellor :: _ =>
      some { studentId := studentId, counsellorId := counsellor.id,
             date := epochDay (nowMs + 24 * 60 * 60 * 1000), time := "10:00",
             status := "auto-scheduled", riskLevel := riskLevel }
  else none

/-- One day's risk counter object
(`{ low: 0, moderate: 0, high: 0, crisis: 0 }`). -/
structure RiskCounts where
  low : Nat
  moderate : Nat
  high : Nat
  crisis : Nat
deriving DecidableEq, Repr

/-- The default counter object used when the day has no record yet. -/
def emptyRiskCounts : RiskCounts := ⟨0, 0, 0, 0⟩

/-- `existingAnalytics[riskLevel] = (existingAnalytics[riskLevel] || 0) + 1`:
bump the one field named by the tier. -/
def incrementRisk (counts : RiskCounts) (tier : RiskLevel) : RiskCounts :=
  match tier with
  | RiskLevel.low => { counts with low := counts.low + 1 }
  | RiskLevel.moderate => { counts with moderate := counts.moderate + 1 }
  | RiskLevel.high => { counts with high := counts.high + 1 }
  | RiskLevel.crisis => { counts with crisis := counts.crisis + 1 }

/-- The chat handler's analytics step on one day's stored value:
`kv.get(key) || {low:0,moderate:0,high:0,crisis:0}`, then increment. -/
def incrementRiskStore (stored : Option RiskCounts) (tier : RiskLevel) : RiskCounts :=
  incrementRisk (stored.getD emptyRiskCounts) tier

/-- The day's stored counter after `n` chat submissions of the given tier,
starting from no record. -/
def incrementRiskN (tier : RiskLevel) : Nat → Option RiskCounts
  | 0 => none
  | n + 1 => some (incrementRiskStore (incrementRiskN tier n) tier)

/-- Componentwise order on counter objects: no field ever decreases. -/
def riskCountsLE (a b : RiskCounts) : Prop :=
  a.low ≤ b.low ∧ a.moderate ≤ b.moderate ∧ a.high ≤ b.high ∧ a.crisis ≤ b.crisis

/-- A stored chat message, restricted to the fields the handlers compute. -/
structure ChatMessage where
  userId : String
  message : String
  isUser : Bool
  riskLevel : Option RiskLevel
deriving DecidableEq, Repr

/-- A stored assessment record as the `POST /assessment` handler builds it
(`responses` duplicates `scores` in every caller and is dropped). -/
structure AssessmentRecord where
  userId : String
  ty : String
  scores : List Int
  result : String
  riskLevel : RiskLevel
deriving DecidableEq, Repr

/-- The key-value store's contents, one field per key family:
`chat:*`, `assessment:*`, `appointment:*` (the student/counsellor copies
hold the same record), `analytics:risk:<date>` and
`analytics:assessment:<date>` indexed by their date key. -/
structure ServerState where
  chats : List ChatMessage
  assessments : List AssessmentRecord
  appointments : List Appointment
  riskCounters : String → Option RiskCounts
  assessmentCounters : String → Option (String → Nat)

/-- A store with nothing in it. -/
def initialServerState : ServerState :=
  ⟨[], [], [], fun _ => none, fun _ => none⟩

/-- The state effect of the server's `POST /assessment` handler: score the
submission, append the assessment record, and bump today's per-instrument
assessment counter (`(existingAnalytics[type] || 0) + 1` over
`kv.get(key) || {}`). Nothing else is written. -/
def handleAssessment (userId ty : String) (scores : List Int) (today : String)
    (s : ServerState) : ServerState :=
  let result := (scoreAssessment ty scores).1
  let riskLevel := (scoreAssessment ty scores).2
  let assessment : AssessmentRecord := ⟨userId, ty, scores, result, riskLevel⟩
  let existingAnalytics := (s.assessmentCounters today).getD (fun _ => 0)
  { s with
    assessments := s.assessments ++ [assessment]
    assessmentCounters :=
      Function.update s.assessmentCounters today
        (some (Function.update existingAnalytics ty (existingAnalytics ty + 1))) }

/-- The state effect of the server's `POST /chat` handler: store the chat
message, run the auto-scheduling block, and (when a risk level was sent)
bump today's risk counter. -/
def handleChat (userId message : String) (isUser : Bool) (riskLevel : Option RiskLevel)
    (users : List Profile) (nowMs : Nat) (today : String) (s : ServerState) : ServerState :=
  let s1 := { s with chats := s.chats ++ [⟨userId, message, isUser, riskLevel⟩] }
  let s2 :=
    match riskLevel with
    | some rl =>
      match maybeEscalate userId rl users nowMs with
      | some appointment => { s1 with appointments := s1.appointments ++ [appointment] }
      | none => s1
    | none => s1
  match riskLevel with
  | some rl =>
    let existingAnalytics := (s2.riskCounters today).getD emptyRiskCounts
    { s2 with
      riskCounters :=
        Function.update s2.riskCounters today (some (incrementRisk existingAnalytics rl)) }
  | none => s2

/-- A processed day row's `Total`: the sum of the four tier counts. -/
def totalOf (day : RiskCounts) : Nat :=
  day.low + day.moderate + day.high + day.crisis

/-- JavaScript `array.slice(-n)`: the last `n` elements (all of them when
there are fewer). -/
def jsSliceLast (n : Nat) (l : List α) : List α := l.drop (l.length - n)

/-- `processRiskData` from the admin dashboard, restricted to the counts
the statistics read: keep the last 7 day rows. -/
def processRiskData (rows : List RiskCounts) : List RiskCounts := jsSliceLast 7 rows

/-- The result object of `getOverallStats` in the admin dashboard.
`crisisRate` is the numeric value the source formats with `toFixed(1)`. -/
structure OverallStats where
  totalInteractions : Nat
  crisisCases : Nat
  highRiskCases : Nat
  crisisRate : ℚ
deriving Repr

/-- `getOverallStats` from the admin dashboard: sum the last 7 days'
totals, crisis counts and high counts, and compute
`totalInteractions > 0 ? (crisisCases / totalInteractions) * 100 : '0'`. -/
def getOverallStats (rows : List RiskCounts) : OverallStats :=
  let riskData := processRiskData rows
  let totalInteractions := (riskData.map totalOf).sum
  let crisisCases := (riskData.map (fun day => day.crisis)).sum
  let highRiskCases := (riskData.map (fun day => day.high)).sum
  { totalInteractions := totalInteractions
    crisisCases := crisisCases
    highRiskCases := highRiskCases
    crisisRate :=
      if 0 < totalInteractions then ((crisisCases : ℚ) / totalInteractions) * 100 else 0 }

/-! ## Theorems -/

/-- C2: any message containing a crisis keyword as a substring of its
lowercased form classifies as `crisis`, whatever lower-severity keywords
also occur: the crisis set is tested first. -/
theorem classify_crisis_dominates (message : String)
    (h : ∃ keyword ∈ crisisKeywords, jsIncludes (lowerChars message) keyword = true) :
    assessRiskBasedOnKeywords message = RiskLevel.crisis := by
  have hany : crisisKeywords.any (fun k => jsIncludes (lowerChars message) k) = true := by
    rcases h with ⟨kw, hmem, hinc⟩
    exact List.any_eq_true.mpr ⟨kw, hmem, hinc⟩
  unfold assessRiskBasedOnKeywords
  simp only [hany, if_true]

/-- Witness for C2 at a message holding both the moderate keyword "sad" and
the crisis keyword "die": the result is `crisis`. -/
theorem classify_crisis_dominates_witness :
    (∃ keyword ∈ crisisKeywords,
        jsIncludes (lowerChars "I feel SAD and want to DIE") keyword = true) ∧
      assessRiskBasedOnKeywords "I feel SAD and want to DIE" = RiskLevel.crisis :=
  ⟨by decide, classify_crisis_dominates "I feel SAD and want to DIE" (by decide)⟩

/-- C8: the empty message matches no keyword and classifies as `low`. -/
theorem classify_empty_low : assessRiskBasedOnKeywords "" = RiskLevel.low := by
  decide

/-- JavaScript's `reduce((sum, score) => sum + score, 0)` is the list sum. -/
theorem foldl_add_eq_sum (l : List Int) : l.foldl (· + ·) 0 = l.sum :=
  List.sum_eq_foldl.symm

/-- C3: a valid PHQ-9 submission (9 items, each in [0, 3]) has a total in
[0, 27] and is scored exactly by the specification's threshold table on the
sum of the items. -/
theorem phq9_follows_threshold_table (scores : List Int)
    (hlen : scores.length = 9) (hrange : ∀ x ∈ scores, 0 ≤ x ∧ x ≤ 3) :
    0 ≤ scores.sum ∧ scores.sum ≤ 27 ∧
      scoreAssessment "PHQ-9" scores = phq9SpecTable scores.sum := by
  have h0 : 0 ≤ scores.sum := List.sum_nonneg fun x hx => (hrange x hx).1
  have h27 : scores.sum ≤ 27 := by
    have h := List.sum_le_card_nsmul scores 3 fun x hx => (hrange x hx).2
    rw [hlen] at h
    simpa using h
  refine ⟨h0, h27, ?_⟩
  unfold scoreAssessment phq9SpecTable
  simp only [foldl_add_eq_sum]
  split_ifs <;> first | rfl | (exfalso; omega) | simp_all

/-- Witness for C3 at the all-threes submission: total 27, severity
"Severe Depression", tier crisis. -/
theorem phq9_follows_threshold_table_witness :
    0 ≤ ([3, 3, 3, 3, 3, 3, 3, 3, 3] : List Int).sum ∧
      ([3, 3, 3, 3, 3, 3, 3, 3, 3] : List Int).sum ≤ 27 ∧
      scoreAssessment "PHQ-9" [3, 3, 3, 3, 3, 3, 3, 3, 3] =
        phq9SpecTable ([3, 3, 3, 3, 3, 3, 3, 3, 3] : List Int).sum :=
  phq9_follows_threshold_table [3, 3, 3, 3, 3, 3, 3, 3, 3] (by decide) (by decide)

/-- C4: a valid GAD-7 submission (7 items, each in [0, 3]) has a total in
[0, 21], is scored exactly by the specification's threshold table on the
sum of the items, and never receives the crisis tier. -/
theorem gad7_follows_threshold_table (scores : List Int)
    (hlen : scores.length = 7) (hrange : ∀ x ∈ scores, 0 ≤ x ∧ x ≤ 3) :
    0 ≤ scores.sum ∧ scores.sum ≤ 21 ∧
      scoreAssessment "GAD-7" scores = gad7SpecTable scores.sum ∧
      (scoreAssessment "GAD-7" scores).2 ≠ RiskLevel.crisis := by
  have h0 : 0 ≤ scores.sum := List.sum_nonneg fun x hx => (hrange x hx).1
  have h21 : scores.sum ≤ 21 := by
    have h := List.sum_le_card_nsmul scores 3 fun x hx => (hrange x hx).2
    rw [hlen] at h
    simpa using h
  have htab : scoreAssessment "GAD-7" scores = gad7SpecTable scores.sum := by
    unfold scoreAssessment gad7SpecTable
    simp only [foldl_add_eq_sum]
    split_ifs <;> first | rfl | (exfalso; omega) | simp_all
  refine ⟨h0, h21, htab, ?_⟩
  rw [htab]
  unfold gad7SpecTable
  split_ifs <;> decide

/-- Witness for C4 at the all-threes submission: total 21, severity
"Severe Anxiety", tier high (not crisis). -/
theorem gad7_follows_threshold_table_witness :
    0 ≤ ([3, 3, 3, 3, 3, 3, 3] : List Int).sum ∧
      ([3, 3, 3, 3, 3, 3, 3] : List Int).sum ≤ 21 ∧
      scoreAssessment "GAD-7" [3, 3, 3, 3, 3, 3, 3] =
        gad7SpecTable ([3, 3, 3, 3, 3, 3, 3] : List Int).sum ∧
      (scoreAssessment "GAD-7" [3, 3, 3, 3, 3, 3, 3]).2 ≠ RiskLevel.crisis :=
  gad7_follows_threshold_table [3, 3, 3, 3, 3, 3, 3] (by decide) (by decide)

/-- Whatever its total, the PHQ-9 if-chain lands in one of the five table
outcomes. -/
theorem phq9_chain_mem (t : Int) :
    (if t ≤ 4 then ("Minimal Depression", RiskLevel.low)
     else if t ≤ 9 then ("Mild Depression", RiskLevel.low)
     else if t ≤ 14 then ("Moderate Depression", RiskLevel.moderate)
     else if t ≤ 19 then ("Moderately Severe Depression", RiskLevel.high)
     else ("Severe Depression", RiskLevel.crisis)) ∈ phq9Outcomes := by
  split_ifs <;> decide

/-- Whatever its total, the GAD-7 if-chain lands in one of the four table
outcomes. -/
theorem gad7_chain_mem (t : Int) :
    (if t ≤ 4 then ("Minimal Anxiety", RiskLevel.low)
     else if t ≤ 9 then ("Mild Anxiety", RiskLevel.low)
     else if t ≤ 14 then ("Moderate Anxiety", RiskLevel.moderate)
     else ("Severe Anxiety", RiskLevel.high)) ∈ gad7Outcomes := by
  split_ifs <;> decide

/-- C1 counterexample: a PHQ-9 submission with ten items, each 4 — wrong
length and every item out of range — is not rejected; the handler sums it
to 40 and produces the normal score ("Severe Depression", crisis). No
`InvalidInputError` (nor any other validation failure) exists in the code. -/
theorem phq9_invalid_input_scored_cex :
    scoreAssessment "PHQ-9" [4, 4, 4, 4, 4, 4, 4, 4, 4, 4] =
      ("Severe Depression", RiskLevel.crisis) := by decide

/-- C1 amended: the scorer validates nothing — a submission whose
itemScores violate the length precondition or the [0, 3] range
precondition is still scored, producing one of the instrument's ordinary
threshold-table outcomes (from the sum of the items) instead of failing. -/
theorem score_invalid_input_still_scores (pscores gscores : List Int)
    (hp : pscores.length ≠ 9 ∨ ∃ x ∈ pscores, x < 0 ∨ 3 < x)
    (hg : gscores.length ≠ 7 ∨ ∃ x ∈ gscores, x < 0 ∨ 3 < x) :
    scoreAssessment "PHQ-9" pscores ∈ phq9Outcomes ∧
      scoreAssessment "GAD-7" gscores ∈ gad7Outcomes :=
  ⟨phq9_chain_mem (pscores.foldl (· + ·) 0), gad7_chain_mem (gscores.foldl (· + ·) 0)⟩

/-- Witness for the amended C1: a one-item PHQ-9 submission with value 5
and a one-item GAD-7 submission with value -1 are both scored normally. -/
theorem score_invalid_input_still_scores_witness :
    (([5] : List Int).length ≠ 9 ∨ ∃ x ∈ ([5] : List Int), x < 0 ∨ 3 < x) ∧
      (([-1] : List Int).length ≠ 7 ∨ ∃ x ∈ ([-1] : List Int), x < 0 ∨ 3 < x) ∧
      (scoreAssessment "PHQ-9" [5] ∈ phq9Outcomes ∧
        scoreAssessment "GAD-7" [-1] ∈ gad7Outcomes) :=
  ⟨by decide, by decide, score_invalid_input_still_scores [5] [-1] (by decide) (by decide)⟩

/-- Adding exactly one day of milliseconds moves the UTC day number up by
exactly one. -/
theorem epochDay_add_one_day (ms : Nat) :
    epochDay (ms + 86400000) = epochDay ms + 1 :=
  Nat.add_div_right ms (by norm_num)

/-- C5: the escalation block returns none for low and moderate tiers; for
high and crisis it books the first counsellor in the stored ordering for
the day after the current one at "10:00" with status "auto-scheduled" and
the triggering tier — and returns none (not a fault) when no counsellor
profile exists. -/
theorem maybeEscalate_spec (studentId : String) (tier : RiskLevel)
    (users : List Profile) (nowMs : Nat) :
    maybeEscalate studentId tier users nowMs =
      if tier = RiskLevel.high ∨ tier = RiskLevel.crisis then
        match users.filter (fun profile => profile.role == "counsellor") with
        | [] => none
        | counsellor :: _ =>
          some { studentId := studentId, counsellorId := counsellor.id,
                 date := epochDay nowMs + 1, time := "10:00",
                 status := "auto-scheduled", riskLevel := tier }
      else none := by
  cases tier <;> simp [maybeEscalate, epochDay_add_one_day]

/-- The counter after n + 1 increments of the high tier from an empty day
counts exactly n + 1 under high and 0 elsewhere. -/
theorem incrementRiskN_high (n : Nat) :
    incrementRiskN RiskLevel.high (n + 1) = some ⟨0, 0, n + 1, 0⟩ := by
  induction n with
  | zero => rfl
  | succ k ih =>
    show some (incrementRiskStore (incrementRiskN RiskLevel.high (k + 1)) RiskLevel.high) = _
    rw [ih]
    rfl

/-- C6: applying the chat handler's risk-counter increment N > 0 times
with tier high on the same date, starting from no record, yields a counter
of N for high and 0 for every other tier; and a single increment never
decreases any field of the stored counter. -/
theorem incrementRisk_monotone (n : Nat) (stored : Option RiskCounts) (tier : RiskLevel)
    (hn : 0 < n) :
    incrementRiskN RiskLevel.high n = some ⟨0, 0, n, 0⟩ ∧
      riskCountsLE (stored.getD emptyRiskCounts) (incrementRiskStore stored tier) := by
  refine ⟨?_, ?_⟩
  · obtain ⟨m, rfl⟩ : ∃ m, n = m + 1 := ⟨n - 1, by omega⟩
    exact incrementRiskN_high m
  · cases stored <;> cases tier <;>
      simp [incrementRiskStore, incrementRisk, riskCountsLE, emptyRiskCounts]

/-- Witness for C6 at N = 3 and a single crisis increment over the stored
counter ⟨1, 2, 3, 4⟩. -/
theorem incrementRisk_monotone_witness :
    0 < 3 ∧
      (incrementRiskN RiskLevel.high 3 = some ⟨0, 0, 3, 0⟩ ∧
        riskCountsLE ((some (⟨1, 2, 3, 4⟩ : RiskCounts)).getD emptyRiskCounts)
          (incrementRiskStore (some ⟨1, 2, 3, 4⟩) RiskLevel.crisis)) :=
  ⟨by decide, incrementRisk_monotone 3 (some ⟨1, 2, 3, 4⟩) RiskLevel.crisis (by decide)⟩

/-- C7 counterexample: for the one-day counts {low: 3, crisis: 1} the
admin dashboard's crisis rate is 25 (a percentage, formatted "25.0"), not
the bare ratio 0.25 the claim states. -/
theorem crisisRate_not_ratio_cex :
    (getOverallStats [⟨3, 0, 0, 1⟩]).crisisRate = 25 ∧
      (getOverallStats [⟨3, 0, 0, 1⟩]).crisisRate ≠ (1 : ℚ) / 4 := by
  constructor
  · norm_num [getOverallStats, processRiskData, jsSliceLast, totalOf]
  · norm_num [getOverallStats, processRiskData, jsSliceLast, totalOf]

/-- C7 amended: the crisis rate is crisisTotal divided by grandTotal
expressed as a percentage (multiplied by 100), with 0 returned when the
grand total is 0 and no division performed there; for counts
{low: 3, crisis: 1} it is 25 (the ratio 0.25 as a percent). -/
theorem crisisRate_percentage (rows : List RiskCounts) :
    (getOverallStats rows).crisisRate =
        100 * ((getOverallStats rows).crisisCases : ℚ) /
          ((getOverallStats rows).totalInteractions : ℚ) ∧
      (getOverallStats []).crisisRate = 0 ∧
      (getOverallStats [⟨3, 0, 0, 1⟩]).crisisRate = 25 := by
  refine ⟨?_, ?_, ?_⟩
  · unfold getOverallStats
    dsimp only
    split_ifs with h
    · field_simp
      ring
    · have h0 : ((processRiskData rows).map totalOf).sum = 0 := by omega
      rw [h0]
      simp
  · simp [getOverallStats, processRiskData, jsSliceLast]
  · simp [getOverallStats, processRiskData, jsSliceLast, totalOf]
    norm_num

/-- C9: an assessment whose type is neither "PHQ-9" nor "GAD-7" does not
fail: the handler stores a record with the empty severity label and tier
low, and still bumps that type's daily assessment counter by one. -/
theorem assessment_unknown_type (userId ty : String) (scores : List Int) (today : String)
    (s : ServerState) (hp : ty ≠ "PHQ-9") (hg : ty ≠ "GAD-7") :
    (handleAssessment userId ty scores today s).assessments =
        s.assessments ++ [⟨userId, ty, scores, "", RiskLevel.low⟩] ∧
      ((handleAssessment userId ty scores today s).assessmentCounters today).getD
          (fun _ => 0) ty =
        ((s.assessmentCounters today).getD (fun _ => 0)) ty + 1 := by
  have hscore : scoreAssessment ty scores = ("", RiskLevel.low) := by
    unfold scoreAssessment
    simp [hp, hg]
  constructor
  · simp [handleAssessment, hscore]
  · simp [handleAssessment, Function.update_same]

/-- Witness for C9 at type "OTHER" over the empty store: one record with
empty label and tier low, counter for "OTHER" now 1. -/
theorem assessment_unknown_type_witness :
    ("OTHER" ≠ "PHQ-9") ∧ ("OTHER" ≠ "GAD-7") ∧
      ((handleAssessment "u" "OTHER" [1, 2] "d" initialServerState).assessments =
          initialServerState.assessments ++ [⟨"u", "OTHER", [1, 2], "", RiskLevel.low⟩] ∧
        ((handleAssessment "u" "OTHER" [1, 2] "d" initialServerState).assessmentCounters
              "d").getD (fun _ => 0) "OTHER" =
          ((initialServerState.assessmentCounters "d").getD (fun _ => 0)) "OTHER" + 1) :=
  ⟨by decide, by decide,
    assessment_unknown_type "u" "OTHER" [1, 2] "d" initialServerState (by decide) (by decide)⟩

/-- C10: the assessment handler creates no appointment, touches no day's
risk counter and stores no chat message — it only appends the assessment
record (whatever tier was computed, crisis included) and bumps the daily
assessment counter; the chat path, by contrast, does create an appointment
on a crisis message when a counsellor exists. -/
theorem assessment_frame (userId ty : String) (scores : List Int) (today : String)
    (s : ServerState) :
    (handleAssessment userId ty scores today s).appointments = s.appointments ∧
      (handleAssessment userId ty scores today s).riskCounters = s.riskCounters ∧
      (handleAssessment userId ty scores today s).chats = s.chats ∧
      (handleAssessment userId ty scores today s).assessments =
        s.assessments ++
          [⟨userId, ty, scores, (scoreAssessment ty scores).1, (scoreAssessment ty scores).2⟩] ∧
      (handleChat "u" "m" true (some RiskLevel.crisis) [⟨"c", "counsellor"⟩] 0 "d"
          initialServerState).appointments ≠ [] := by
  exact ⟨rfl, rfl, rfl, rfl, by decide⟩
